import Mathlib

/-!
Shallow embedding of the SDR instrumentation scripts (sdr_log.py, sdr_live.py,
sdr_test2.py) and proofs about the spectral-estimator / acquisition-loop
primitives they share.

Modelling conventions:
* IQ samples are elements of `ℂ`; floating-point arithmetic is modelled by
  exact arithmetic over `ℝ` (and over `ℚ` where the source only does
  additions, multiplications and comparisons of machine-representable
  values, as in the sweep-frequency generation).
* The numpy value NaN (produced, e.g., by `np.mean` of an empty array) is
  modelled by the dedicated constructor `FloatVal.nan`; a normal finite
  value by `FloatVal.num x`.
* A Python call that may raise is modelled with `Except PyError`; a raised
  exception that escapes a loop is modelled by the `Option PyError`
  component of the loop result.
-/

/-- Python exception classes that actually occur in the scripts:
`ValueError` (numpy FFT on zero points), `AttributeError` (missing method
on an object), `RuntimeError` (raised explicitly when device enumeration
comes back empty). -/
inductive PyError
  | valueError
  | attributeError
  | runtimeError
deriving DecidableEq

/-- A numpy float64 value: either NaN or a real number.  Exact real
arithmetic stands in for floating point; only the NaN/non-NaN distinction
of the source is kept explicitly. -/
inductive FloatVal
  | nan
  | num (x : ℝ)

/-- An IQ block: the contents of a `np.complex64` buffer. -/
abbrev IQBlock := List ℂ

/-- Mean of squared magnitudes, `np.mean(np.abs(samples) ** 2)` on a
non-empty array (sdr_log.py line 147). -/
noncomputable def meanAbsSq (samples : IQBlock) : ℝ :=
  ((samples.map fun z => Complex.abs z ^ 2).sum) / samples.length

/-- The numpy mean of `np.abs(samples) ** 2`: numpy returns NaN (with a
RuntimeWarning, not an exception) when the array is empty. -/
noncomputable def npMeanAbsSq (samples : IQBlock) : FloatVal :=
  if samples.isEmpty then FloatVal.nan else FloatVal.num (meanAbsSq samples)

/-- Decibel conversion `10 * np.log10(power_lin + 1e-20)` of sdr_log.py
line 148; NaN propagates through `+`, `log10` and `*`. -/
noncomputable def dB10 : FloatVal → FloatVal
  | FloatVal.nan => FloatVal.nan
  | FloatVal.num x => FloatVal.num (10 * Real.logb 10 (x + 1e-20))

/-- The mean-power estimator of sdr_log.py lines 146-148 applied to one
block of samples (the spec calls it `computeMeanPower`):
`10 * log10(mean(|samples|^2) + 1e-20)`.  No operation in it raises an
exception; an empty block yields NaN via the empty numpy mean. -/
noncomputable def computeMeanPower (samples : IQBlock) : FloatVal :=
  dB10 (npMeanAbsSq samples)

/-- Model of `measure_power` (sdr_log.py lines 133-150) after the tune and
settle I/O steps: `ret` is the return value of the single `readStream`
call and `buf` the buffer contents.  A non-positive return yields `none`
(the ReadFailure sentinel); otherwise the first `ret` samples are reduced
— the code performs no accumulation and accepts a partial read as-is. -/
noncomputable def measure_power (ret : ℤ) (buf : IQBlock) : Option FloatVal :=
  if ret ≤ 0 then none else some (computeMeanPower (buf.take ret.toNat))

lemma logb_ten_eps : Real.logb 10 (1e-20 : ℝ) = -20 := by
  have h : (1e-20 : ℝ) = (10 : ℝ) ^ (-20 : ℤ) := by norm_num
  have h10 : Real.log 10 ≠ 0 := by
    have := Real.log_pos (by norm_num : (1 : ℝ) < 10)
    linarith
  rw [h, Real.logb, Real.log_zpow]
  push_cast
  field_simp

/-- C1 — For every non-empty IQ block, the mean-power estimator returns
the mean of the squared magnitudes of the samples converted to decibels as
`10 * log10(meanPower + 1e-20)`; on an all-zero block it returns the
ε-floored minimum `10 * log10(1e-20) = -200`, a finite real value (in
particular `FloatVal.num _`, never NaN, and not a minus-infinity). -/
theorem computeMeanPower_spec (samples : IQBlock) (h : samples ≠ []) :
    computeMeanPower samples
      = FloatVal.num (10 * Real.logb 10 (meanAbsSq samples + 1e-20))
    ∧ ((∀ z ∈ samples, z = 0) → computeMeanPower samples = FloatVal.num (-200)) := by
  have hne : samples.isEmpty = false := by
    simp [List.isEmpty_iff, h]
  constructor
  · simp [computeMeanPower, npMeanAbsSq, hne, dB10]
  · intro hz
    have hmean : meanAbsSq samples = 0 := by
      have hsum : (samples.map fun z => Complex.abs z ^ 2).sum = 0 := by
        apply List.sum_eq_zero
        intro x hx
        obtain ⟨z, hzmem, hzx⟩ := List.mem_map.mp hx
        rw [hz z hzmem] at hzx
        simpa using hzx.symm
      simp [meanAbsSq, hsum]
    simp only [computeMeanPower, npMeanAbsSq, hne, Bool.false_eq_true, if_false, dB10, hmean]
    rw [zero_add, logb_ten_eps]
    norm_num

/-- Witness for C1 at the concrete all-zero one-sample block. -/
theorem computeMeanPower_spec_witness :
    (([0] : IQBlock) ≠ [])
    ∧ (computeMeanPower [0]
        = FloatVal.num (10 * Real.logb 10 (meanAbsSq [0] + 1e-20))
      ∧ ((∀ z ∈ ([0] : IQBlock), z = 0) → computeMeanPower [0] = FloatVal.num (-200))) :=
  ⟨by simp, computeMeanPower_spec [0] (by simp)⟩

/-- The numpy Hanning window `np.hanning(M)` (sdr_live.py line 141,
sdr_test2.py line 131): empty for M = 0, the single value 1 for M = 1, and
otherwise `0.5 - 0.5 * cos(2 * pi * k / (M - 1))` for k = 0 .. M - 1. -/
noncomputable def hanning (M : ℕ) : List ℝ :=
  if M = 0 then []
  else if M = 1 then [1]
  else (List.range M).map fun k : ℕ =>
    0.5 - 0.5 * Real.cos (2 * Real.pi * (k : ℝ) / ((M : ℝ) - 1))

/-- The discrete Fourier transform computed by `np.fft.fft`:
`X k = sum over n of x n * exp(-2 * pi * I * k * n / N)`. -/
noncomputable def dft (x : List ℂ) : List ℂ :=
  (List.range x.length).map fun k : ℕ =>
    ((List.range x.length).map fun n : ℕ =>
      x.getD n 0 * Complex.exp
        (-2 * (Real.pi : ℂ) * Complex.I * (k : ℂ) * (n : ℂ) / (x.length : ℂ))).sum

/-- The call `np.fft.fft(x)`, which raises ValueError ("Invalid number of
FFT data points (0) specified") when the input has zero points. -/
noncomputable def np_fft (x : List ℂ) : Except PyError (List ℂ) :=
  if x.length = 0 then Except.error PyError.valueError else Except.ok (dft x)

/-- The numpy `fftshift` for a one-dimensional array of length n: a
cyclic roll by n / 2, i.e. the second half (starting at index n - n / 2)
followed by the first half, putting the zero-frequency bin at the middle
index. -/
def fftshift {α : Type} (x : List α) : List α :=
  x.drop (x.length - x.length / 2) ++ x.take (x.length - x.length / 2)

/-- The numpy `fftfreq(N, d)` bin-frequency list: `k / (N * d)` for
k below the ceiling of N / 2, then the negative frequencies
`(k - N) / (N * d)` for the remaining k. -/
def fftfreq (N : ℕ) (d : ℚ) : List ℚ :=
  (List.range N).map fun k =>
    if k < (N + 1) / 2 then (k : ℚ) / (N * d) else ((k : ℚ) - N) / (N * d)

/-- Elementwise product `samples * window` with
`window = np.hanning(len(samples))` (sdr_live.py lines 141-142,
sdr_test2.py lines 131-132). -/
noncomputable def windowed (samples : IQBlock) : IQBlock :=
  List.zipWith (fun (w : ℝ) (z : ℂ) => (w : ℂ) * z) (hanning samples.length) samples

/-- The decibel values produced from one block:
`20 * np.log10(np.abs(np.fft.fftshift(np.fft.fft(samples * window))) + 1e-12)`
(sdr_live.py lines 142-143, sdr_test2.py lines 135-136). -/
noncomputable def spectrumVals (samples : IQBlock) : List ℝ :=
  (fftshift (dft (windowed samples))).map fun X =>
    20 * Real.logb 10 (Complex.abs X + 1e-12)

/-- The spectrum pipeline of sdr_live.py lines 140-143 and sdr_test2.py
lines 130-136 (the spec calls it `computeSpectrum`): window, FFT (which
raises on an empty block), recenter, magnitude, decibels. -/
noncomputable def computeSpectrum (samples : IQBlock) : Except PyError (List ℝ) :=
  match np_fft (windowed samples) with
  | Except.error e => Except.error e
  | Except.ok spec => Except.ok ((fftshift spec).map fun X =>
      20 * Real.logb 10 (Complex.abs X + 1e-12))

/-- The frequency axis `np.fft.fftshift(np.fft.fftfreq(N, d=1/rate))`
of sdr_test2.py line 139 (sdr_live.py lines 92-94 additionally divides by
1e6 for display, which does not change the ordering). -/
def freqAxis (N : ℕ) (rate : ℚ) : List ℚ :=
  fftshift (fftfreq N (1 / rate))

lemma hanning_length (M : ℕ) : (hanning M).length = M := by
  unfold hanning
  split_ifs with h1 h2
  · simp [h1]
  · simp [h2]
  · simp

lemma windowed_length (samples : IQBlock) :
    (windowed samples).length = samples.length := by
  simp [windowed, hanning_length]

lemma dft_length (x : List ℂ) : (dft x).length = x.length := by
  simp [dft]

lemma fftshift_length {α : Type} (x : List α) :
    (fftshift x).length = x.length := by
  simp [fftshift]

lemma fftshift_subset {α : Type} (x : List α) : fftshift x ⊆ x := by
  intro a ha
  rcases List.mem_append.mp ha with h | h
  · exact List.drop_subset _ x h
  · exact List.take_subset _ x h

lemma fftfreq_length (N : ℕ) (d : ℚ) : (fftfreq N d).length = N := by
  simp [fftfreq]

lemma fftfreq_lb (N : ℕ) (d : ℚ) (hd : 0 < d) (x : ℚ) (hx : x ∈ fftfreq N d) :
    ((((N + 1) / 2 : ℕ) : ℚ) - N) / (N * d) ≤ x := by
  simp only [fftfreq, List.mem_map, List.mem_range] at hx
  obtain ⟨k, hk, hkx⟩ := hx
  have hN : 0 < N := lt_of_le_of_lt (Nat.zero_le k) hk
  have hc : 0 < (N : ℚ) * d := mul_pos (by exact_mod_cast hN) hd
  have hhalf : ((N + 1) / 2 : ℕ) ≤ N := by omega
  have hhalfQ : (((N + 1) / 2 : ℕ) : ℚ) ≤ (N : ℚ) := by exact_mod_cast hhalf
  rw [← hkx]
  split_ifs with hcase
  · apply (div_le_div_iff_of_pos_right hc).mpr
    have : (0 : ℚ) ≤ (k : ℚ) := Nat.cast_nonneg k
    linarith
  · apply (div_le_div_iff_of_pos_right hc).mpr
    have : (((N + 1) / 2 : ℕ) : ℚ) ≤ (k : ℚ) := by
      exact_mod_cast Nat.le_of_not_lt hcase
    linarith

lemma freqAxis_head_val (N : ℕ) (hN : 0 < N) (d : ℚ) :
    (fftshift (fftfreq N d)).getD 0 0 = ((((N + 1) / 2 : ℕ) : ℚ) - N) / (N * d) := by
  rcases Nat.lt_or_ge N 2 with h1 | h2
  · have hN1 : N = 1 := by omega
    subst hN1
    have : List.range 1 = [0] := rfl
    simp [fftshift, fftfreq, this]
  · set l := fftfreq N d with hl
    have hlen : l.length = N := fftfreq_length N d
    set m := N - N / 2 with hm
    have hmN : m < N := by omega
    have hshift : fftshift l = l.drop m ++ l.take m := by
      rw [fftshift, hlen]
    have hdrop_len : (l.drop m).length = N - m := by simp [hlen]
    have h0 : 0 < (l.drop m).length := by omega
    rw [hshift, List.getD_append _ _ _ _ h0]
    have hidx : (l.drop m).getD 0 0 = l.getD m 0 := by
      rw [List.getD_eq_getElem _ _ h0, List.getD_eq_getElem _ _ (by omega : m < l.length)]
      simp [List.getElem_drop]
    rw [hidx]
    have hmhalf : m = (N + 1) / 2 := by omega
    have hmlt : m < l.length := by omega
    rw [List.getD_eq_getElem _ _ hmlt]
    have hval : l[m] = if m < (N + 1) / 2 then (m : ℚ) / (N * d)
        else ((m : ℚ) - N) / (N * d) := by
      simp [hl, fftfreq]
    rw [hval, if_neg (by omega)]
    rw [hmhalf]

/-- C2 — For every IQ block of length N at least 1 and every sample rate
above 0, the spectrum pipeline succeeds and returns exactly N decibel
values, each the `20 * log10(|X| + 1e-12)` conversion of the corresponding
bin of the recentered DFT of the windowed block; and in the matching
frequency axis `fftshift(fftfreq(N, 1/rate))` the bin at index 0 carries
the most negative frequency offset (it is a lower bound of every bin
frequency). -/
theorem computeSpectrum_spec (samples : IQBlock) (rate : ℚ) (hs : samples ≠ [])
    (hr : 0 < rate) :
    computeSpectrum samples = Except.ok (spectrumVals samples)
    ∧ (spectrumVals samples).length = samples.length
    ∧ (∀ k, k < samples.length → (spectrumVals samples).getD k 0
        = 20 * Real.logb 10
            (Complex.abs ((fftshift (dft (windowed samples))).getD k 0) + 1e-12))
    ∧ (freqAxis samples.length rate).length = samples.length
    ∧ (∀ x ∈ freqAxis samples.length rate,
        (freqAxis samples.length rate).getD 0 0 ≤ x) := by
  have hlen_ne : (windowed samples).length ≠ 0 := by
    rw [windowed_length]
    exact fun hh => hs (List.length_eq_zero.mp hh)
  have hlen2 : (fftshift (dft (windowed samples))).length = samples.length := by
    rw [fftshift_length, dft_length, windowed_length]
  refine ⟨?_, ?_, ?_, ?_, ?_⟩
  · simp [computeSpectrum, np_fft, hlen_ne, spectrumVals]
  · simp [spectrumVals, fftshift_length, dft_length, windowed_length]
  · intro k hk
    rw [spectrumVals,
      List.getD_eq_getElem _ _ (by rw [List.length_map, hlen2]; exact hk),
      List.getD_eq_getElem _ _ (by rw [hlen2]; exact hk)]
    simp
  · simp [freqAxis, fftshift_length, fftfreq_length]
  · intro x hx
    have hN : 0 < samples.length := List.length_pos.mpr hs
    have hd : 0 < 1 / rate := by positivity
    rw [freqAxis, freqAxis_head_val samples.length hN (1 / rate)]
    rw [freqAxis] at hx
    exact fftfreq_lb samples.length (1 / rate) hd x (fftshift_subset _ hx)

/-- Witness for C2 at the concrete one-sample block with sample rate 1. -/
theorem computeSpectrum_spec_witness :
    (([1] : IQBlock) ≠ []) ∧ ((0 : ℚ) < 1)
    ∧ (computeSpectrum [1] = Except.ok (spectrumVals [1])
      ∧ (spectrumVals [1]).length = ([1] : IQBlock).length
      ∧ (∀ k, k < ([1] : IQBlock).length → (spectrumVals [1]).getD k 0
          = 20 * Real.logb 10
              (Complex.abs ((fftshift (dft (windowed [1]))).getD k 0) + 1e-12))
      ∧ (freqAxis ([1] : IQBlock).length 1).length = ([1] : IQBlock).length
      ∧ (∀ x ∈ freqAxis ([1] : IQBlock).length 1,
          (freqAxis ([1] : IQBlock).length 1).getD 0 0 ≤ x)) :=
  ⟨by simp, by norm_num, computeSpectrum_spec [1] 1 (by simp) (by norm_num)⟩

/-- C3 counterexample — on the zero-length block the mean-power estimator
does not fail with an error at all: `np.mean` of the empty slice yields
NaN (only a RuntimeWarning is emitted), NaN propagates through the decibel
conversion, and the function returns the garbage value NaN.  This refutes
the claim that both estimators fail with an InvalidInput error on N = 0
inputs. -/
theorem computeMeanPower_empty_nan : computeMeanPower [] = FloatVal.nan := rfl

/-- C3 amended — on a zero-length block the spectrum pipeline does fail
with an invalid-input error (numpy rejects an FFT of zero data points with
ValueError), but the mean-power estimator does not fail: it silently
returns the NaN produced by the empty numpy mean. -/
theorem estimators_empty_behavior :
    computeSpectrum [] = Except.error PyError.valueError
    ∧ computeMeanPower [] = FloatVal.nan := by
  constructor
  · simp [computeSpectrum, np_fft, windowed]
  · rfl

/-- The capture loop of sdr_test2.py lines 101-111: starting from
`captured` samples already in the buffer, consume the successive
`readStream` return values in `reads`; while fewer than `nsamps` samples
are captured, a positive return is accumulated and a non-positive return
ends the loop (the code prints a warning and breaks, keeping what was
captured so far). -/
def readLoop (nsamps : ℕ) : ℕ → List ℤ → ℕ
  | captured, [] => captured
  | captured, r :: rest =>
    if captured < nsamps then
      if 0 < r then readLoop nsamps (captured + r.toNat) rest else captured
    else captured

/-- The cycle outcome of sdr_test2.py lines 101-128: after the capture
loop, zero captured samples abort the processing (`none`), and otherwise
the captured prefix — full or partial — is processed (`some count`,
lines 122-128 slice `buff[:num_captured]`). -/
def acquireResult (nsamps : ℕ) (reads : List ℤ) : Option ℕ :=
  if readLoop nsamps 0 reads = 0 then none else some (readLoop nsamps 0 reads)

/-- C4 counterexample — requesting 8192 samples when the reads return
4096 samples and then a failure code -1: the cycle is neither a full
8192-sample block nor a ReadFailure; the partial 4096-sample buffer is
processed.  This refutes the claim that the loop accumulates until either
the full requested length is obtained or the cycle fails. -/
theorem acquire_full_or_fail_false :
    acquireResult 8192 [4096, -1] = some 4096
    ∧ acquireResult 8192 [4096, -1] ≠ some 8192
    ∧ acquireResult 8192 [4096, -1] ≠ none := by
  refine ⟨?_, ?_, ?_⟩ <;> decide

/-- C4 amended — in sdr_test2.py a positive read is accumulated, a
non-positive read ends accumulation, and the cycle is reported failed only
when nothing at all was captured: after one partial read of `p` samples a
failure return yields a processed partial block of `p` samples, while a
failure on the very first read yields `none`; and in sdr_log.py
`measure_power` performs a single read with no accumulation — a positive
return of `p` samples is processed directly (even when smaller than the
requested block) and a non-positive return is the per-cycle ReadFailure
sentinel `none`. -/
theorem acquire_partial_processed (nsamps : ℕ) (p r : ℤ) (rest : List ℤ)
    (buf : IQBlock) (hp : 0 < p) (hlt : p.toNat < nsamps) (hr : r ≤ 0) :
    acquireResult nsamps (p :: r :: rest) = some p.toNat
    ∧ acquireResult nsamps (r :: rest) = none
    ∧ measure_power p buf = some (computeMeanPower (buf.take p.toNat))
    ∧ measure_power r buf = none := by
  have h0n : 0 < nsamps := lt_of_le_of_lt (Nat.zero_le _) hlt
  have hnr : ¬(0 < r) := not_lt.mpr hr
  have hptn : p.toNat ≠ 0 := by omega
  have hloop1 : readLoop nsamps 0 (p :: r :: rest) = p.toNat := by
    simp [readLoop, h0n, hp, hnr, hlt]
  have hloop2 : readLoop nsamps 0 (r :: rest) = 0 := by
    simp [readLoop, h0n, hnr]
  refine ⟨?_, ?_, ?_, ?_⟩
  · simp [acquireResult, hloop1, hptn]
  · simp [acquireResult, hloop2]
  · simp [measure_power, not_le.mpr hp]
  · simp [measure_power, hr]

/-- Witness for C4 (amended) at the concrete failing cycle of the
counterexample. -/
theorem acquire_partial_processed_witness :
    ((0 : ℤ) < 4096) ∧ ((4096 : ℤ).toNat < 8192) ∧ ((-1 : ℤ) ≤ 0)
    ∧ (acquireResult 8192 [4096, -1] = some (4096 : ℤ).toNat
      ∧ acquireResult 8192 [-1] = none
      ∧ measure_power 4096 [] = some (computeMeanPower (([] : IQBlock).take (4096 : ℤ).toNat))
      ∧ measure_power (-1) [] = none) :=
  ⟨by decide, by decide, by decide,
    acquire_partial_processed 8192 4096 (-1) [] [] (by decide) (by decide) (by decide)⟩

/-- Number of elements produced by `np.arange(start, stop, step)` for a
positive step: the ceiling of `(stop - start) / step`, clamped at 0. -/
def arangeLen (start stop step : ℚ) : ℕ :=
  (⌈(stop - start) / step⌉).toNat

/-- The values of `np.arange(start, stop, step)`:
`start + k * step` for `k = 0 .. len - 1`, covering exactly the values
strictly below `stop`. -/
def np_arange (start stop step : ℚ) : List ℚ :=
  (List.range (arangeLen start stop step)).map fun k : ℕ => start + (k : ℚ) * step

/-- The sweep-mode frequency list of sdr_log.py line 197:
`np.arange(f_start, f_stop + f_step / 2, f_step)`. -/
def sweepFreqs (fstart fstop fstep : ℚ) : List ℚ :=
  np_arange fstart (fstop + fstep / 2) fstep

/-- C6 counterexample — with start 900e6, stop 902.5e6, step 1e6 (all
exactly representable in binary floating point, with all the arithmetic
below exact), the value 903e6 satisfies 903e6 ≤ stop + step / 2, yet
`np.arange` excludes it: the generated sequence contains every value
strictly below `stop + step / 2`, not every value ≤ `stop + step / 2`. -/
theorem sweep_endpoint_le_false :
    ((900000000 : ℚ) + 3 * 1000000 ≤ 902500000 + 1000000 / 2)
    ∧ ((900000000 : ℚ) + 3 * 1000000) ∉ sweepFreqs 900000000 902500000 1000000
    ∧ sweepFreqs 900000000 902500000 1000000 = [900000000, 901000000, 902000000] := by
  have hc : (⌈((902500000 : ℚ) + 1000000 / 2 - 900000000) / 1000000⌉ : ℤ) = 3 := by
    rw [Int.ceil_eq_iff]
    norm_num
  have hlen : arangeLen 900000000 (902500000 + 1000000 / 2) 1000000 = 3 := by
    rw [arangeLen, hc]
    rfl
  have hr : List.range 3 = [0, 1, 2] := rfl
  have hlist : sweepFreqs 900000000 902500000 1000000
      = [900000000, 901000000, 902000000] := by
    simp only [sweepFreqs, np_arange, hlen, hr, List.map_cons, List.map_nil]
    norm_num
  refine ⟨by norm_num, ?_, hlist⟩
  rw [hlist]
  norm_num

/-- C6 amended — sweep mode generates `start, start + step, start + 2 *
step, …`, including exactly the values strictly below `stop + step / 2`
(so the intended endpoint is still included despite floating-point step
accumulation); for start 900e6, stop 903e6, step 1e6 the produced sequence
is exactly 900e6, 901e6, 902e6, 903e6. -/
theorem sweepFreqs_spec (fstart fstop fstep : ℚ) (hstep : 0 < fstep) :
    (∀ x, x ∈ sweepFreqs fstart fstop fstep
      ↔ ∃ k : ℕ, x = fstart + (k : ℚ) * fstep
          ∧ fstart + (k : ℚ) * fstep < fstop + fstep / 2)
    ∧ sweepFreqs 900000000 903000000 1000000
      = [900000000, 901000000, 902000000, 903000000] := by
  constructor
  · intro x
    constructor
    · intro hx
      simp only [sweepFreqs, np_arange, List.mem_map, List.mem_range] at hx
      obtain ⟨k, hk, rfl⟩ := hx
      refine ⟨k, rfl, ?_⟩
      rw [arangeLen] at hk
      have h1 : (k : ℤ) < ⌈(fstop + fstep / 2 - fstart) / fstep⌉ := Int.lt_toNat.mp hk
      have h2 : (k : ℚ) < (fstop + fstep / 2 - fstart) / fstep := by
        exact_mod_cast Int.lt_ceil.mp h1
      have h3 := (lt_div_iff₀ hstep).mp h2
      linarith
    · rintro ⟨k, rfl, hlt⟩
      simp only [sweepFreqs, np_arange, List.mem_map, List.mem_range]
      refine ⟨k, ?_, rfl⟩
      rw [arangeLen]
      apply Int.lt_toNat.mpr
      apply Int.lt_ceil.mpr
      push_cast
      rw [lt_div_iff₀ hstep]
      linarith
  · have hc : (⌈((903000000 : ℚ) + 1000000 / 2 - 900000000) / 1000000⌉ : ℤ) = 4 := by
      rw [Int.ceil_eq_iff]
      norm_num
    have hlen : arangeLen 900000000 (903000000 + 1000000 / 2) 1000000 = 4 := by
      rw [arangeLen, hc]
      rfl
    have hr : List.range 4 = [0, 1, 2, 3] := rfl
    simp only [sweepFreqs, np_arange, hlen, hr, List.map_cons, List.map_nil]
    norm_num

/-- Witness for C6 (amended) at the spec example start 900e6, stop 903e6,
step 1e6. -/
theorem sweepFreqs_spec_witness :
    ((0 : ℚ) < 1000000)
    ∧ ((∀ x, x ∈ sweepFreqs 900000000 903000000 1000000
        ↔ ∃ k : ℕ, x = 900000000 + (k : ℚ) * 1000000
            ∧ (900000000 : ℚ) + (k : ℚ) * 1000000 < 903000000 + 1000000 / 2)
      ∧ sweepFreqs 900000000 903000000 1000000
        = [900000000, 901000000, 902000000, 903000000]) :=
  ⟨by norm_num, sweepFreqs_spec 900000000 903000000 1000000 (by norm_num)⟩

/-- One waterfall update of sdr_live.py lines 150-151: all rows scroll up
by one (`wf_data[:-1] = wf_data[1:]`) and the newest row is written at the
end (`wf_data[-1] = power`); as a list of rows, drop the oldest (head) and
append the new row. -/
def wfAppend (buf : List (List ℝ)) (row : List ℝ) : List (List ℝ) :=
  buf.tail ++ [row]

lemma foldl_wfAppend (rows : List (List ℝ)) :
    ∀ buf : List (List ℝ), buf ≠ [] →
      List.foldl wfAppend buf rows = (buf ++ rows).drop rows.length := by
  induction rows with
  | nil =>
    intro buf hbuf
    simp
  | cons r rest ih =>
    intro buf hbuf
    cases buf with
    | nil => exact absurd rfl hbuf
    | cons b t =>
      have hne : wfAppend (b :: t) r ≠ [] := by simp [wfAppend]
      rw [List.foldl_cons, ih _ hne]
      simp only [wfAppend, List.tail_cons, List.length_cons, List.cons_append,
        List.drop_succ_cons, List.append_assoc, List.singleton_append,
        List.nil_append]

/-- C7 — the waterfall buffer is a fixed-capacity FIFO: starting from the
initial buffer of K sentinel rows fixed at configuration time, after K + 1
appended rows the buffer holds exactly the K most recent rows in append
order (the oldest appended row has been evicted), and its length is still
exactly K. -/
theorem waterfall_fifo (K : ℕ) (init : List ℝ) (rows : List (List ℝ))
    (hK : 0 < K) (hrows : rows.length = K + 1) :
    List.foldl wfAppend (List.replicate K init) rows = rows.tail
    ∧ (List.foldl wfAppend (List.replicate K init) rows).length = K := by
  have hbuf : List.replicate K init ≠ [] := by
    simp [List.replicate_eq_nil_iff]
    omega
  have h1 : List.foldl wfAppend (List.replicate K init) rows
      = (List.replicate K init ++ rows).drop rows.length :=
    foldl_wfAppend rows _ hbuf
  have h2 : (List.replicate K init ++ rows).drop rows.length = rows.tail := by
    rw [List.drop_append_eq_append_drop]
    have ha : (List.replicate K init).drop rows.length = [] := by
      apply List.drop_eq_nil_of_le
      simp [hrows]
    have hb : rows.length - (List.replicate K init).length = 1 := by
      simp [hrows]
    rw [ha, hb, List.drop_one, List.nil_append]
  refine ⟨h1.trans h2, ?_⟩
  rw [h1, h2, List.length_tail, hrows]
  omega

/-- Witness for C7 at capacity 2 with three concrete appended rows. -/
theorem waterfall_fifo_witness :
    (0 < 2) ∧ (([[1], [2], [3]] : List (List ℝ)).length = 2 + 1)
    ∧ (List.foldl wfAppend (List.replicate 2 [(0 : ℝ)]) [[1], [2], [3]]
        = ([[1], [2], [3]] : List (List ℝ)).tail
      ∧ (List.foldl wfAppend (List.replicate 2 [(0 : ℝ)]) [[1], [2], [3]]).length = 2) :=
  ⟨by decide, by decide, waterfall_fifo 2 [0] [[1], [2], [3]] (by decide) (by decide)⟩

/-- The fixed CSV column header of sdr_log.py lines 159-160. -/
def csvHeader : List String :=
  ["timestamp_iso", "freq_hz", "power_db", "gps_lat", "gps_lon", "gps_alt"]

/-- Model of `setup_csv` (sdr_log.py lines 153-162) acting on the file
contents (a list of rows): without `append` the file is opened in
truncating write mode ("w"), erasing any pre-existing content; with
`append` it is opened at the end ("a"), so `f.tell() == 0` holds exactly
when the pre-existing file was empty.  The header row is then written
when `not append or f.tell() == 0`. -/
def setup_csv (existing : List (List String)) (append : Bool) : List (List String) :=
  let contents := if append then existing else []
  if !append || contents.isEmpty then contents ++ [csvHeader] else contents

/-- The methods a `csv.writer` object actually has; `flush` is not among
them (it is a method of the underlying file object, not of the writer). -/
def csvWriterMethods : List String := ["writerow", "writerows"]

/-- The call `writer.flush()` of sdr_log.py lines 184 and 214: Python
raises AttributeError when the attribute is not found on the object. -/
def writerFlush : Except PyError Unit :=
  if "flush" ∈ csvWriterMethods then Except.ok () else Except.error PyError.attributeError

/-- One record-emitting step of the sdr_log.py logging loops (lines
182-184 and 212-214): `writer.writerow(row)` appends the row to the file
buffer, then `writer.flush()` either succeeds or raises. -/
def logRecord (file : List (List String)) (row : List String) :
    List (List String) × Option PyError :=
  match writerFlush with
  | Except.ok _ => (file ++ [row], none)
  | Except.error e => (file ++ [row], some e)

/-- One pass over the sweep frequencies in `run_sweep_mode` (sdr_log.py
lines 201-214): for each frequency one row `(freq, measured power or the
None sentinel)` is emitted via writerow and then `writer.flush()` runs;
an exception raised there propagates out of the `for` loop (only
KeyboardInterrupt is caught), ending the pass with the rows emitted so
far. -/
def runSweepPass (measure : ℚ → Option ℝ) : List ℚ → List (ℚ × Option ℝ) × Option PyError
  | [] => ([], none)
  | f :: rest =>
    match writerFlush with
    | Except.error e => ([(f, measure f)], some e)
    | Except.ok _ =>
      let out := runSweepPass measure rest
      ((f, measure f) :: out.1, out.2)

/-- C5 — evaluation of the sweep loop at its failing input: on the spec
example frequency list, with every read failing (ReadFailure, measured
power `none`), the loop emits the first record with the None sentinel and
then raises AttributeError at `writer.flush()` (a `csv.writer` has no
`flush` method), terminating the sweep; the remaining three frequencies
are never attempted.  This contradicts the claim that a ReadFailure never
terminates the loop and that the next frequency is still attempted. -/
theorem sweep_first_cycle_aborts :
    runSweepPass (fun _ => none) [900000000, 901000000, 902000000, 903000000]
      = ([(900000000, none)], some PyError.attributeError)
    ∧ (runSweepPass (fun _ => none)
        [900000000, 901000000, 902000000, 903000000]).1.length = 1 := by
  have hflush : writerFlush = Except.error PyError.attributeError := rfl
  constructor
  · simp only [runSweepPass, hflush]
  · simp only [runSweepPass, hflush, List.length_cons, List.length_nil]

/-- C8 — evaluation of the CSV sink at its failing input: the header
logic of `setup_csv` behaves as claimed (header written on overwrite and
on append-to-empty, no header on append to a non-empty file), but the
per-record flush is broken: `logRecord` always raises AttributeError
because `csv.writer` has no `flush` method, so no record is ever flushed
immediately after being written. -/
theorem csv_sink_flush_bug :
    setup_csv [["x"]] false = [csvHeader]
    ∧ setup_csv [] true = [csvHeader]
    ∧ setup_csv [["x"]] true = [["x"]]
    ∧ logRecord [csvHeader] ["t0", "915000000", "", "", "", ""]
      = ([csvHeader, ["t0", "915000000", "", "", "", ""]], some PyError.attributeError) := by
  refine ⟨by decide, by decide, by decide, ?_⟩
  have hflush : writerFlush = Except.error PyError.attributeError := rfl
  simp only [logRecord, hflush]
  rfl

/-- C10 — opening the CSV sink without the append flag truncates: for any
pre-existing file contents, after `setup_csv(path, append=False)` the file
holds exactly the fresh header row; the previous log is destroyed. -/
theorem setup_csv_overwrite_erases (existing : List (List String)) :
    setup_csv existing false = [csvHeader] := by
  simp [setup_csv]

/-- The RX actions a script can perform on the hardware after
enumeration. -/
inductive SdrAction
  | enumerate
  | openDevice
  | configure
  | setupStream
  | activate
deriving DecidableEq

/-- Startup of sdr_log.py (`open_sdr`, lines 86-119): enumerate devices,
raise RuntimeError when the list is empty (line 92-93), otherwise open
device 0, configure the RX chain, set up and activate the stream. -/
def open_sdr (devs : List String) : List SdrAction × Option PyError :=
  if devs.isEmpty then ([SdrAction.enumerate], some PyError.runtimeError)
  else ([SdrAction.enumerate, SdrAction.openDevice, SdrAction.configure,
    SdrAction.setupStream, SdrAction.activate], none)

/-- Startup of sdr_live.py (`main`, lines 45-82): same structure — the
empty-enumeration check at lines 50-52 precedes opening, configuring and
streaming. -/
def startup_live (devs : List String) : List SdrAction × Option PyError :=
  if devs.isEmpty then ([SdrAction.enumerate], some PyError.runtimeError)
  else ([SdrAction.enumerate, SdrAction.openDevice, SdrAction.configure,
    SdrAction.setupStream, SdrAction.activate], none)

/-- Startup of sdr_test2.py (`main`, lines 48-92): same structure — the
empty-enumeration check at lines 54-56 precedes opening, configuring and
streaming. -/
def startup_test2 (devs : List String) : List SdrAction × Option PyError :=
  if devs.isEmpty then ([SdrAction.enumerate], some PyError.runtimeError)
  else ([SdrAction.enumerate, SdrAction.openDevice, SdrAction.configure,
    SdrAction.setupStream, SdrAction.activate], none)

/-- C9 — with an empty device enumeration every script raises the fatal
RuntimeError ("No SoapySDR devices found...") right after enumerating:
the error escapes uncaught (nothing in the scripts handles it, so the
process aborts with the diagnostic), and no configuration or streaming
action is ever attempted. -/
theorem no_device_found_aborts :
    open_sdr [] = ([SdrAction.enumerate], some PyError.runtimeError)
    ∧ startup_live [] = ([SdrAction.enumerate], some PyError.runtimeError)
    ∧ startup_test2 [] = ([SdrAction.enumerate], some PyError.runtimeError)
    ∧ SdrAction.configure ∉ (open_sdr []).1
    ∧ SdrAction.setupStream ∉ (open_sdr []).1
    ∧ SdrAction.configure ∉ (startup_live []).1
    ∧ SdrAction.setupStream ∉ (startup_live []).1
    ∧ SdrAction.configure ∉ (startup_test2 []).1
    ∧ SdrAction.setupStream ∉ (startup_test2 []).1 := by
  decide
